import Mathlib

/-!
Verification of the heatmap visualization pipeline of the `ui` repository.

The development shallowly embeds, from the TypeScript sources:
  * the theme/color configuration (`src/unnamed/part_000`: `CHART_COLORS`,
    `getColorsByTheme`, `COLORS`, `getThemeColors`) together with the
    `AppThemes` enumeration (`src/enums/app.enum.ts`);
  * the heatmap data pipeline of
    `src/components/charts/homepage/HeatmapAprChart.tsx`:
    the default-data generator `generateHeatmapData`, the memoized matrix
    builder `heatmapData`, the cell-label and tooltip formatters, and an
    operational model of the polling effect (cancellation flag, interval
    handle, and commit-on-resolve behaviour of `fetchData`).

JavaScript `undefined` arising from out-of-range array indexing is embedded
as `Option.none`; a present numeric value `v` is `some v`.
-/

namespace UiHeatmap

/-- `AppThemes` enum from `src/enums/app.enum.ts`. -/
inductive AppThemes where
  | LIGHT
  | DARK
  | SYSTEM
deriving Repr, DecidableEq

/-- Runtime string value of each `AppThemes` member. -/
def AppThemes.value : AppThemes → String
  | .LIGHT => "light"
  | .DARK => "dark"
  | .SYSTEM => "system"

/-- Chart sub-palette: the per-mode record held in `CHART_COLORS`. -/
structure ChartColors where
  text : String
  axis : String
  line : String
  tooltipBackground : String
  hyperEvmLp : String
  hyperEvmBalances : String
  hyperCorePerp : String
  hyperCoreSpot : String
  heatmapGradient : List String
deriving Repr, DecidableEq

/-- `CHART_COLORS.light` from the color configuration file. -/
def CHART_COLORS_light : ChartColors :=
  { text := "#434651"
    axis := "rgba(46, 49, 60, 0.1)"
    line := "rgba(46, 49, 60, 0.2)"
    tooltipBackground := "rgba(255, 255, 255, 0.98)"
    hyperEvmLp := "#3333ff"
    hyperEvmBalances := "#47b8b8"
    hyperCorePerp := "#ff3366"
    hyperCoreSpot := "#ff9933"
    heatmapGradient :=
      ["#dcfce7", "#fef3c7", "#fed7aa", "#fecaca", "#86efac",
       "#fde047", "#fb923c", "#f87171", "#dc2626"] }

/-- `CHART_COLORS.dark` from the color configuration file. -/
def CHART_COLORS_dark : ChartColors :=
  { text := "#e6e8ef"
    axis := "rgba(209, 212, 220, 0.4)"
    line := "rgba(209, 212, 220, 0.2)"
    tooltipBackground := "rgba(20, 30, 45, 0.99)"
    hyperEvmLp := "#6666ff"
    hyperEvmBalances := "#47d4e6"
    hyperCorePerp := "#ff6680"
    hyperCoreSpot := "#ffaa4d"
    heatmapGradient :=
      ["#14532d", "#713f12", "#9a3412", "#991b1b", "#16a34a",
       "#ca8a04", "#ea580c", "#dc2626", "#b91c1c"] }

/-- `CHART_COLORS[mode]` lookup: the record is keyed by the strings
`"light"` and `"dark"`. -/
def CHART_COLORS (mode : String) : ChartColors :=
  if mode = "dark" then CHART_COLORS_dark else CHART_COLORS_light

/-- `ThemeColors` type from the color configuration file. -/
structure ThemeColors where
  background : String
  backgroundOpposite : String
  primary : String
  default : String
  hyperEvmLp : String
  hyperEvmBalances : String
  hyperCorePerp : String
  hyperCoreSpot : String
  charts : ChartColors
deriving Repr, DecidableEq

/-- `getColorsByTheme(isDark)`: builds the full theme palette for a mode. -/
def getColorsByTheme (isDark : Bool) : ThemeColors :=
  let mode : String := if isDark then "dark" else "light"
  let chartColors := CHART_COLORS mode
  { background := if mode = "dark" then "#0f1a1f" else "#f6fefd"
    backgroundOpposite := if mode = "dark" then "#f6fefd" else "#0f1a1f"
    primary := "#22ab94"
    default := if mode = "dark" then "#d1d4dc" else "#2e313c"
    hyperEvmLp := chartColors.hyperEvmLp
    hyperEvmBalances := chartColors.hyperEvmBalances
    hyperCorePerp := chartColors.hyperCorePerp
    hyperCoreSpot := chartColors.hyperCoreSpot
    charts := chartColors }

/-- `ThemeConfig` shape of the exported `COLORS` constant. -/
structure ThemeConfig where
  light : ThemeColors
  dark : ThemeColors
deriving Repr, DecidableEq

/-- `COLORS`: palettes precomputed once from `getColorsByTheme`. -/
def COLORS : ThemeConfig :=
  { light := getColorsByTheme false
    dark := getColorsByTheme true }

/-- `getThemeColors(mode?)`: selects the dark palette exactly when the mode
string equals `AppThemes.DARK`; an absent mode is `none`. -/
def getThemeColors (mode : Option String) : ThemeColors :=
  if mode = some AppThemes.DARK.value then COLORS.dark else COLORS.light

/-! ### Heatmap data pipeline (`HeatmapAprChart.tsx`) -/

/-- `HeatmapDataConfig` interface (the `showNegativeFunding` option). -/
structure HeatmapDataConfig where
  showNegativeFunding : Bool
deriving Repr, DecidableEq

/-- `HeatmapJsonDataset` interface: the fetched JSON document shape. -/
structure HeatmapJsonDataset where
  token : String
  sources : List String
  pools : List String
  valuesBps : List (List Int)
  updatedAt : String
deriving Repr, DecidableEq

/-- `HeatmapDataResult` interface: matrix triples plus axis metadata.
Each triple is `(source index i, pool index j, valuesBps[j][i])`; the value
is `none` when the JavaScript indexing would produce `undefined`. -/
structure HeatmapDataResult where
  data : List (Nat × Nat × Option Int)
  lpSteps : Nat
  fundingSteps : Nat
  xAxisLabels : List String
  yAxisLabels : List String
deriving Repr, DecidableEq

/-- JavaScript double indexing `valuesBps[j][i]`, with `undefined` as
`none`. -/
def cellValue (valuesBps : List (List Int)) (j i : Nat) : Option Int :=
  match valuesBps[j]? with
  | some row => row[i]?
  | none => none

/-- The nested `for i / for j / data.push([i, j, valuesBps[j][i]])` loops
shared by `generateHeatmapData` and the `heatmapData` memo. -/
def buildTriples (n m : Nat) (valuesBps : List (List Int)) :
    List (Nat × Nat × Option Int) :=
  (List.range n).flatMap fun i =>
    (List.range m).map fun j => (i, j, cellValue valuesBps j i)

/-- Default sources of `generateHeatmapData`. -/
def defaultSources : List String := ["HYPERCORE", "PYTH", "REDSTONE"]

/-- Default pools of `generateHeatmapData`. -/
def defaultPools : List String :=
  ["POOL A HyperSwap 0.05", "POOL B HyperSwap 0.3", "POOL C Project X"]

/-- Default values matrix (bps) of `generateHeatmapData`. -/
def defaultValuesBps : List (List Int) :=
  [[12, 25, -8], [5, 18, 3], [-4, 10, 37]]

/-- `generateHeatmapData(config)`: the hardcoded fallback result. The
`showNegativeFunding` option is destructured but unused by the data
construction. -/
def generateHeatmapData (config : HeatmapDataConfig) : HeatmapDataResult :=
  let _showNegativeFunding := config.showNegativeFunding
  let sources := defaultSources
  let pools := defaultPools
  let valuesBps := defaultValuesBps
  { data := buildTriples sources.length pools.length valuesBps
    lpSteps := sources.length
    fundingSteps := pools.length
    xAxisLabels := sources
    yAxisLabels := pools }

/-- The `heatmapData` memo: builds triples from the fetched dataset when it
is present with non-empty `sources`, `pools` and `valuesBps`, and falls
back to `generateHeatmapData` otherwise.  The JavaScript truthiness test
`dataset.sources?.length && ...` is the conjunction of the three lengths
being non-zero. -/
def heatmapData (dataset : Option HeatmapJsonDataset)
    (showNegativeFunding : Bool) : HeatmapDataResult :=
  match dataset with
  | some ds =>
      if ds.sources.length != 0 && ds.pools.length != 0 &&
          ds.valuesBps.length != 0 then
        { data := buildTriples ds.sources.length ds.pools.length ds.valuesBps
          lpSteps := ds.sources.length
          fundingSteps := ds.pools.length
          xAxisLabels := ds.sources
          yAxisLabels := ds.pools }
      else generateHeatmapData { showNegativeFunding := showNegativeFunding }
  | none => generateHeatmapData { showNegativeFunding := showNegativeFunding }

/-! ### Cell label and tooltip formatters -/

/-- The heatmap series label formatter: given `params.value` (or `none`
for a null/absent `params.value`), renders the signed bps text
`${v > 0 ? '+' : ''}${v} bps`, or the empty string when the value array is
missing or shorter than 3. -/
def seriesLabelFmt (value : Option (List Int)) : String :=
  match value with
  | none => ""
  | some arr =>
      if arr.length < 3 then ""
      else
        let v := arr.getD 2 0
        (if v > 0 then "+" else "") ++ toString v ++ " bps"

/-- The `Spread:` line of the tooltip formatter:
`Spread: ${spreadBps > 0 ? '+' : ''}${spreadBps} bps`. -/
def tooltipSpreadLine (spreadBps : Int) : String :=
  "Spread: " ++ (if spreadBps > 0 then "+" else "") ++
    toString spreadBps ++ " bps"

/-! ### Operational model of the polling effect

The `useEffect` body (lines 103–130 of `HeatmapAprChart.tsx`) captures a
mutable `isCancelled` flag and an interval handle.  Each `fetchData` call
eventually resolves; at resolution the code commits
`setDataset(json)` on success and `setDataset(null)` on failure, in both
cases only when `isCancelled` is still `false`.  The cleanup function sets
`isCancelled` and clears the interval. -/

/-- Outcome of one `fetchData` attempt: a parsed JSON body, or any failure
(network error, non-ok status, malformed body — all reach the same `catch`
block). -/
inductive FetchOutcome where
  | success (json : HeatmapJsonDataset)
  | failure
deriving Repr, DecidableEq

/-- The commit step at the resolution of one `fetchData` call: the new
`dataset` state. -/
def resolve (isCancelled : Bool) (dataset : Option HeatmapJsonDataset)
    (outcome : FetchOutcome) : Option HeatmapJsonDataset :=
  if isCancelled then dataset
  else
    match outcome with
    | .success json => some json
    | .failure => none

/-- Observable events of one effect epoch: a fetch being issued (initial
call or interval tick), or an issued fetch resolving.  The sequence number
only identifies which fetch resolves; the code never inspects it. -/
inductive PollEvent where
  | issue (seq : Nat)
  | resolveAt (seq : Nat) (outcome : FetchOutcome)
deriving Repr, DecidableEq

/-- Runs a list of events of one effect epoch over the `dataset` state.
`isCancelled` is constant during an epoch: it is `false` from setup until
cleanup and `true` afterwards, and issuing a fetch does not itself change
state. -/
def runEpoch (isCancelled : Bool) (dataset : Option HeatmapJsonDataset) :
    List PollEvent → Option HeatmapJsonDataset
  | [] => dataset
  | PollEvent.issue _ :: rest => runEpoch isCancelled dataset rest
  | PollEvent.resolveAt _ outcome :: rest =>
      runEpoch isCancelled (resolve isCancelled dataset outcome) rest

/-- Local state of one effect instance: the `isCancelled` flag, the
interval handle, and whether the interval is still scheduled. -/
structure EffectState where
  isCancelled : Bool
  intervalId : Option Nat
  intervalActive : Bool
deriving Repr, DecidableEq

/-- Effect setup: `isCancelled = false`, then
`intervalId = window.setInterval(fetchData, 5000)`. -/
def effectSetup (id : Nat) : EffectState :=
  { isCancelled := false, intervalId := some id, intervalActive := true }

/-- Effect cleanup: `isCancelled = true; if (intervalId)
window.clearInterval(intervalId)`. -/
def effectCleanup (st : EffectState) : EffectState :=
  { st with
      isCancelled := true
      intervalActive := if st.intervalId.isSome then false else st.intervalActive }

/-! ### Concrete sample data used by witnesses and counterexamples -/

/-- A well-formed 3×3 dataset (the default values wrapped as a fetched
document). -/
def c1SampleDataset : HeatmapJsonDataset :=
  { token := "HYPE"
    sources := defaultSources
    pools := defaultPools
    valuesBps := defaultValuesBps
    updatedAt := "2024-01-01T00:00:00Z" }

/-- A dataset with empty `sources`. -/
def c2EmptyDataset : HeatmapJsonDataset :=
  { token := "ETH", sources := [], pools := ["POOL A"], valuesBps := [[1]],
    updatedAt := "2024-01-01T00:00:00Z" }

/-- A dataset with empty `pools`. -/
def c9EmptyPoolsDataset : HeatmapJsonDataset :=
  { token := "BTC", sources := ["HYPERCORE"], pools := [], valuesBps := [[1]],
    updatedAt := "2024-01-02T00:00:00Z" }

/-- A dataset whose values matrix has the wrong shape: row count `1`
equals the pool count, but the row has `1` column while there are `2`
sources. -/
def c9BadShapeDataset : HeatmapJsonDataset :=
  { token := "HYPE", sources := ["HYPERCORE", "PYTH"], pools := ["POOL A"],
    valuesBps := [[5]], updatedAt := "2024-01-03T00:00:00Z" }

/-- First sample document for the poller scenarios. -/
def sampleDatasetA : HeatmapJsonDataset :=
  { token := "HYPE", sources := ["HYPERCORE"], pools := ["POOL A"],
    valuesBps := [[1]], updatedAt := "2024-01-01T00:00:00Z" }

/-- Second, distinct sample document for the poller scenarios. -/
def sampleDatasetB : HeatmapJsonDataset :=
  { token := "HYPE", sources := ["HYPERCORE"], pools := ["POOL A"],
    valuesBps := [[2]], updatedAt := "2024-01-01T00:00:05Z" }

/-- The fixed default matrix result listed by the specification: three
source labels, three pool labels, and the nine triples derived from the
constant values matrix `[[12, 25, -8], [5, 18, 3], [-4, 10, 37]]`. -/
def specFixedDefault : HeatmapDataResult :=
  { data :=
      [(0, 0, some 12), (0, 1, some 5), (0, 2, some (-4)),
       (1, 0, some 25), (1, 1, some 18), (1, 2, some 10),
       (2, 0, some (-8)), (2, 1, some 3), (2, 2, some 37)]
    lpSteps := 3
    fundingSteps := 3
    xAxisLabels := ["HYPERCORE", "PYTH", "REDSTONE"]
    yAxisLabels :=
      ["POOL A HyperSwap 0.05", "POOL B HyperSwap 0.3", "POOL C Project X"] }

/-! ### Helper lemmas -/

/-- Length of a `flatMap` whose inner lists all have length `m`. -/
lemma length_flatMap_const {α β : Type} (g : α → List β) (m : Nat) :
    ∀ l : List α, (∀ a ∈ l, (g a).length = m) →
      (l.flatMap g).length = l.length * m := by
  intro l
  induction l with
  | nil => intro _; simp
  | cons a l ih =>
      intro h
      have ha : (g a).length = m := h a (List.mem_cons_self a l)
      have hl : ∀ x ∈ l, (g x).length = m := fun x hx =>
        h x (List.mem_cons_of_mem a hx)
      rw [List.flatMap_cons, List.length_append, ha, ih hl, List.length_cons,
        Nat.succ_mul]
      omega

/-- Flat index `i * m + j` into a `flatMap` whose inner lists all have
length `m` reads element `j` of inner list `i`. -/
lemma getElem?_flatMap_const {α β : Type} (g : α → List β) (m j : Nat)
    (hj : j < m) :
    ∀ (l : List α) (i : Nat), (∀ a ∈ l, (g a).length = m) →
      (l.flatMap g)[i * m + j]? = l[i]?.bind fun a => (g a)[j]? := by
  intro l
  induction l with
  | nil => intro i _; simp
  | cons a l ih =>
      intro i h
      have ha : (g a).length = m := h a (List.mem_cons_self a l)
      have hl : ∀ x ∈ l, (g x).length = m := fun x hx =>
        h x (List.mem_cons_of_mem a hx)
      cases i with
      | zero =>
          rw [List.flatMap_cons, Nat.zero_mul, Nat.zero_add,
            List.getElem?_append_left (by rw [ha]; exact hj),
            List.getElem?_cons_zero, Option.some_bind]
      | succ i =>
          have harith : (i + 1) * m + j = m + (i * m + j) := by
            rw [Nat.succ_mul]; omega
          rw [List.flatMap_cons, harith,
            List.getElem?_append_right (by rw [ha]; omega), ha,
            Nat.add_sub_cancel_left, List.getElem?_cons_succ]
          exact ih i hl

/-- `buildTriples` emits exactly `n * m` triples. -/
lemma buildTriples_length (n m : Nat) (vb : List (List Int)) :
    (buildTriples n m vb).length = n * m := by
  have := length_flatMap_const
    (fun i => (List.range m).map fun j => (i, j, cellValue vb j i)) m
    (List.range n) (fun a _ => by simp)
  simpa [buildTriples, List.length_range] using this

/-- The triple of `buildTriples` at flat position `i * m + j`. -/
lemma buildTriples_getElem? (n m : Nat) (vb : List (List Int)) (i j : Nat)
    (hi : i < n) (hj : j < m) :
    (buildTriples n m vb)[i * m + j]? = some (i, j, cellValue vb j i) := by
  unfold buildTriples
  rw [getElem?_flatMap_const
    (fun i => (List.range m).map fun j => (i, j, cellValue vb j i)) m j hj
    (List.range n) i (fun a _ => by simp),
    List.getElem?_range hi]
  simp [List.getElem?_map, List.getElem?_range hj]

/-- A cancelled epoch never changes the dataset state. -/
lemma runEpoch_cancelled :
    ∀ (evs : List PollEvent) (d : Option HeatmapJsonDataset),
      runEpoch true d evs = d := by
  intro evs
  induction evs with
  | nil => intro d; rfl
  | cons e evs ih =>
      intro d
      cases e with
      | issue seq => exact ih d
      | resolveAt seq outcome => exact ih d

/-- `runEpoch` splits over list append. -/
lemma runEpoch_append (c : Bool) :
    ∀ (evs1 evs2 : List PollEvent) (d : Option HeatmapJsonDataset),
      runEpoch c d (evs1 ++ evs2) = runEpoch c (runEpoch c d evs1) evs2 := by
  intro evs1
  induction evs1 with
  | nil => intro evs2 d; rfl
  | cons e evs ih =>
      intro evs2 d
      cases e with
      | issue seq => exact ih evs2 d
      | resolveAt seq outcome => exact ih evs2 (resolve c d outcome)

/-- The series label formatter on a full 3-element value array. -/
lemma seriesLabelFmt_triple (i j v : Int) :
    seriesLabelFmt (some [i, j, v]) =
      (if v > 0 then "+" else "") ++ toString v ++ " bps" := rfl

/-! ### Claim theorems -/

/-- C2: For a null dataset, and for any dataset whose sources, pools, or
values sequence is empty, the matrix builder's output is exactly the fixed
default result on every call: sources `['HYPERCORE','PYTH','REDSTONE']`,
three pool labels, and the 9 triples derived from the constant 3×3 values
matrix `[[12,25,-8],[5,18,3],[-4,10,37]]`. -/
theorem c2_default_fallback_exact (b : Bool) (ds : HeatmapJsonDataset)
    (h : ds.sources = [] ∨ ds.pools = [] ∨ ds.valuesBps = []) :
    heatmapData none b = specFixedDefault ∧
    heatmapData (some ds) b = specFixedDefault := by
  constructor
  · rfl
  · have hcond : (ds.sources.length != 0 && ds.pools.length != 0 &&
        ds.valuesBps.length != 0) = false := by
      rcases h with h | h | h <;> simp [h]
    simp only [heatmapData, hcond, Bool.false_eq_true, if_false]
    rfl

/-- Witness for C2 at a concrete empty-sources dataset. -/
theorem c2_default_fallback_exact_witness :
    heatmapData none false = specFixedDefault ∧
    heatmapData (some c2EmptyDataset) false = specFixedDefault :=
  c2_default_fallback_exact false c2EmptyDataset (Or.inl rfl)

/-- C3: For every fetch attempt that fails, the poller clears the held
dataset to `none` (unless the effect is cancelled), so the subsequently
rendered matrix is the default 3×3 demonstration dataset rather than any
previously fetched data. -/
theorem c3_failure_clears_dataset (d : Option HeatmapJsonDataset) (b : Bool) :
    resolve false d FetchOutcome.failure = none ∧
    resolve true d FetchOutcome.failure = d ∧
    heatmapData (resolve false d FetchOutcome.failure) b =
      generateHeatmapData { showNegativeFunding := b } ∧
    (heatmapData (resolve false d FetchOutcome.failure) b).xAxisLabels =
      ["HYPERCORE", "PYTH", "REDSTONE"] :=
  ⟨rfl, rfl, rfl, rfl⟩

/-- C4 counterexample: a failed, uncancelled fetch does not preserve the
prior dataset — it replaces it with `none`. -/
theorem c4_failure_preserves_counterexample :
    resolve false (some sampleDatasetA) FetchOutcome.failure = none ∧
    resolve false (some sampleDatasetA) FetchOutcome.failure ≠
      some sampleDatasetA := by
  decide

/-- C4 amended: when a poll-cycle fetch fails and the effect is not
cancelled, the poller clears the dataset to `none`; the prior dataset is
kept only when the effect has been cancelled. -/
theorem c4_failure_clears_amended (d : Option HeatmapJsonDataset) :
    resolve false d FetchOutcome.failure = none ∧
    resolve true d FetchOutcome.failure = d :=
  ⟨rfl, rfl⟩

/-- C8: The theme resolver is deterministic and idempotent, returns a fully
populated palette whose heatmap gradient has 9 steps for each mode, and the
light gradient is never identical to the dark gradient. -/
theorem c8_theme_resolver_palettes (b : Bool) :
    getColorsByTheme b = getColorsByTheme b ∧
    (getColorsByTheme b).charts.heatmapGradient.length = 9 ∧
    (getColorsByTheme false).charts.heatmapGradient ≠
      (getColorsByTheme true).charts.heatmapGradient := by
  refine ⟨rfl, ?_, by decide⟩
  cases b <;> rfl

/-- C10: Every mode string other than the exact literal `"dark"` — including
an absent mode, `"light"` and `"system"` — selects the light palette; only
`"dark"` selects the dark palette. -/
theorem c10_nondark_selects_light (mode : Option String)
    (h : mode ≠ some "dark") :
    getThemeColors mode = COLORS.light ∧
    getThemeColors (some "dark") = COLORS.dark ∧
    getThemeColors none = COLORS.light ∧
    getThemeColors (some "light") = COLORS.light ∧
    getThemeColors (some "system") = COLORS.light := by
  refine ⟨?_, rfl, rfl, rfl, rfl⟩
  unfold getThemeColors
  exact if_neg h

/-- Witness for C10 at mode `"system"`. -/
theorem c10_nondark_selects_light_witness :
    getThemeColors (some "system") = COLORS.light ∧
    getThemeColors (some "dark") = COLORS.dark ∧
    getThemeColors none = COLORS.light ∧
    getThemeColors (some "light") = COLORS.light ∧
    getThemeColors (some "system") = COLORS.light :=
  c10_nondark_selects_light (some "system") (by decide)

/-- C5 counterexample: within one uncancelled epoch for a fixed token, a
fetch issued before a newer one can resolve last and overwrite the newer
fetch's committed dataset — the code has no sequence-number guard, only the
cancellation flag. -/
theorem c5_stale_commit_counterexample :
    runEpoch false none
        [PollEvent.issue 0, PollEvent.issue 1,
         PollEvent.resolveAt 1 (FetchOutcome.success sampleDatasetB),
         PollEvent.resolveAt 0 (FetchOutcome.success sampleDatasetA)] =
      some sampleDatasetA ∧
    sampleDatasetA ≠ sampleDatasetB := by
  decide

/-- C5 amended: while the effect for the current token is not cancelled,
every resolving fetch commits regardless of issue order, so the
last-arriving successful response determines the dataset (an older fetch's
late response can overwrite a newer one); responses are dropped only once
the effect is cancelled. -/
theorem c5_last_arrival_wins_amended (d : Option HeatmapJsonDataset)
    (evs : List PollEvent) (seq : Nat) (json : HeatmapJsonDataset) :
    runEpoch false d
        (evs ++ [PollEvent.resolveAt seq (FetchOutcome.success json)]) =
      some json ∧
    runEpoch true d evs = d := by
  constructor
  · rw [runEpoch_append]; rfl
  · exact runEpoch_cancelled evs d

/-- C6: After the effect for token A is torn down (token change or
unmount), the cleanup sets the cancellation flag and deactivates the
polling interval, and no A-fetch resolution can change the dataset state
any more. -/
theorem c6_cancellation_on_teardown (id : Nat)
    (d : Option HeatmapJsonDataset) (evs : List PollEvent) :
    (effectCleanup (effectSetup id)).isCancelled = true ∧
    (effectCleanup (effectSetup id)).intervalActive = false ∧
    runEpoch (effectCleanup (effectSetup id)).isCancelled d evs = d := by
  refine ⟨rfl, rfl, ?_⟩
  exact runEpoch_cancelled evs d

/-- C7: The series cell label formatter and the tooltip spread line render
a positive value `v` as `+v bps`, a negative value as `-v bps` with no
extra prefix, and zero as `0 bps`; in particular `12 ↦ "+12 bps"`,
`-8 ↦ "-8 bps"` and `0 ↦ "0 bps"`. -/
theorem c7_signed_bps_labels (n : Nat) (i j : Int) :
    seriesLabelFmt (some [i, j, ((n + 1 : Nat) : Int)]) =
      "+" ++ toString (n + 1) ++ " bps" ∧
    seriesLabelFmt (some [i, j, -((n + 1 : Nat) : Int)]) =
      "-" ++ toString (n + 1) ++ " bps" ∧
    seriesLabelFmt (some [i, j, 0]) = "0 bps" ∧
    tooltipSpreadLine ((n + 1 : Nat) : Int) =
      "Spread: +" ++ toString (n + 1) ++ " bps" ∧
    tooltipSpreadLine (-((n + 1 : Nat) : Int)) =
      "Spread: -" ++ toString (n + 1) ++ " bps" ∧
    tooltipSpreadLine 0 = "Spread: 0 bps" ∧
    seriesLabelFmt (some [i, j, 12]) = "+12 bps" ∧
    seriesLabelFmt (some [i, j, -8]) = "-8 bps" := by
  have hpos : ((n + 1 : Nat) : Int) > 0 := by omega
  have hneg : ¬(-((n + 1 : Nat) : Int) > 0) := by omega
  have hts : toString (-((n + 1 : Nat) : Int)) = "-" ++ toString (n + 1) := rfl
  refine ⟨?_, ?_, rfl, ?_, ?_, rfl, rfl, rfl⟩
  · rw [seriesLabelFmt_triple, if_pos hpos]
    rfl
  · rw [seriesLabelFmt_triple, if_neg hneg, hts]
    rfl
  · unfold tooltipSpreadLine
    rw [if_pos hpos]
    rfl
  · unfold tooltipSpreadLine
    rw [if_neg hneg, hts]
    rfl

/-- C9 counterexample: a dataset whose values matrix is shape-mismatched
(row shorter than the source count) does not fall back to the default —
the builder still emits triples, with `none` (JavaScript `undefined`) for
out-of-range cells. -/
theorem c9_malformed_shape_counterexample :
    (c9BadShapeDataset.valuesBps.getD 0 []).length ≠
      c9BadShapeDataset.sources.length ∧
    heatmapData (some c9BadShapeDataset) false ≠
      generateHeatmapData { showNegativeFunding := false } ∧
    (heatmapData (some c9BadShapeDataset) false).data =
      [(0, 0, some 5), (1, 0, none)] := by
  decide

/-- C9 amended: the matrix builder falls back to the hardcoded 3×3 default
exactly in the absent/empty cases — a null dataset, or empty sources,
pools, or values sequence; a shape-mismatched but non-empty values matrix
is not validated and does not trigger the fallback. -/
theorem c9_fallback_condition_amended (b : Bool) (ds : HeatmapJsonDataset)
    (h : ds.sources = [] ∨ ds.pools = [] ∨ ds.valuesBps = []) :
    heatmapData none b = generateHeatmapData { showNegativeFunding := b } ∧
    heatmapData (some ds) b =
      generateHeatmapData { showNegativeFunding := b } ∧
    (generateHeatmapData { showNegativeFunding := b }).lpSteps = 3 ∧
    (generateHeatmapData { showNegativeFunding := b }).fundingSteps = 3 := by
  refine ⟨rfl, ?_, rfl, rfl⟩
  have hcond : (ds.sources.length != 0 && ds.pools.length != 0 &&
      ds.valuesBps.length != 0) = false := by
    rcases h with h | h | h <;> simp [h]
  simp only [heatmapData, hcond, Bool.false_eq_true, if_false]

/-- Witness for C9 (amended) at a concrete empty-pools dataset. -/
theorem c9_fallback_condition_amended_witness :
    heatmapData none true = generateHeatmapData { showNegativeFunding := true } ∧
    heatmapData (some c9EmptyPoolsDataset) true =
      generateHeatmapData { showNegativeFunding := true } ∧
    (generateHeatmapData { showNegativeFunding := true }).lpSteps = 3 ∧
    (generateHeatmapData { showNegativeFunding := true }).fundingSteps = 3 :=
  c9_fallback_condition_amended true c9EmptyPoolsDataset (Or.inr (Or.inl rfl))

/-- C1: For every dataset with non-empty sources, non-empty pools and a
well-shaped values matrix (row count = pool count `M`, every row of length
= source count `N`), the matrix builder produces exactly `N * M` triples,
source-major, and the triple at flat position `i * M + j` is
`(i, j, valuesBps[j][i])`. -/
theorem c1_matrix_builder_triples (ds : HeatmapJsonDataset) (b : Bool)
    (i j : Nat) (hi : i < ds.sources.length) (hj : j < ds.pools.length)
    (hrows : ds.valuesBps.length = ds.pools.length)
    (hcols : ∀ row ∈ ds.valuesBps, row.length = ds.sources.length) :
    (heatmapData (some ds) b).data.length =
      ds.sources.length * ds.pools.length ∧
    (heatmapData (some ds) b).data[i * ds.pools.length + j]? =
      some (i, j, some ((ds.valuesBps.getD j []).getD i 0)) := by
  have hcond : (ds.sources.length != 0 && ds.pools.length != 0 &&
      ds.valuesBps.length != 0) = true := by
    simp only [Bool.and_eq_true, bne_iff_ne, ne_eq]
    omega
  have hdata : (heatmapData (some ds) b).data =
      buildTriples ds.sources.length ds.pools.length ds.valuesBps := by
    simp only [heatmapData, hcond, if_true]
  constructor
  · rw [hdata, buildTriples_length]
  · rw [hdata, buildTriples_getElem? _ _ _ i j hi hj]
    have hjv : j < ds.valuesBps.length := by omega
    have hx : ds.valuesBps[j]? = some ds.valuesBps[j] :=
      List.getElem?_eq_getElem hjv
    have hlen : ds.valuesBps[j].length = ds.sources.length :=
      hcols _ (List.getElem_mem hjv)
    have hiv : i < ds.valuesBps[j].length := by omega
    have hy : ds.valuesBps[j][i]? = some ds.valuesBps[j][i] :=
      List.getElem?_eq_getElem hiv
    have hcell : cellValue ds.valuesBps j i = some ds.valuesBps[j][i] := by
      unfold cellValue
      rw [hx]
      exact hy
    have hD1 : ds.valuesBps.getD j [] = ds.valuesBps[j] := by
      rw [List.getD_eq_getElem?_getD, hx]
      rfl
    have hD2 : ds.valuesBps[j].getD i 0 = ds.valuesBps[j][i] := by
      rw [List.getD_eq_getElem?_getD, hy]
      rfl
    rw [hcell, hD1, hD2]

/-- Witness for C1 at the 3×3 sample dataset, source index 1, pool
index 2. -/
theorem c1_matrix_builder_triples_witness :
    (heatmapData (some c1SampleDataset) true).data.length =
      c1SampleDataset.sources.length * c1SampleDataset.pools.length ∧
    (heatmapData (some c1SampleDataset) true).data[
        1 * c1SampleDataset.pools.length + 2]? =
      some (1, 2, some ((c1SampleDataset.valuesBps.getD 2 []).getD 1 0)) :=
  c1_matrix_builder_triples c1SampleDataset true 1 2 (by decide) (by decide)
    (by decide) (by decide)

end UiHeatmap
